import Mathlib

/-!
Shallow embedding of the restaurant-recommendation pipeline (`src/app.py`).

Numbers: Python floats are modelled as exact rationals (ℚ).
Python string methods (`lower`, `split`, `replace`, `title`, substring `in`)
are modelled by executable functions over the underlying character lists.
`random.uniform(a, b)` and `random.sample` are modelled by explicit
parameters (a rational draw, resp. a sampling function), since the source
draws from an ambient random source.
-/

namespace LocalRecommend

/-- Model of Python `str.lower()` (character-wise lowering). -/
def strLower (s : String) : String := ⟨s.data.map Char.toLower⟩

/-- Model of Python `str.replace(c, rep)` for a single-character pattern
(the source only replaces the one-character patterns ";" and " "). -/
def charReplace (c : Char) (rep : String) (s : String) : String :=
  ⟨(s.data.map (fun d => if d = c then rep.data else [d])).flatten⟩

/-- Model of Python substring membership `needle in hay`. -/
def containsSub (needle : List Char) : List Char → Bool
  | [] => needle.isEmpty
  | c :: t => needle.isPrefixOf (c :: t) || containsSub needle t

/-- Helper for `pySplit`: split on whitespace, dropping empty pieces;
`cur` is the (reversed) chunk being accumulated. -/
def splitWsAux : List Char → List Char → List (List Char)
  | cur, [] => if cur.isEmpty then [] else [cur.reverse]
  | cur, c :: rest =>
    if c.isWhitespace then
      (if cur.isEmpty then splitWsAux [] rest else cur.reverse :: splitWsAux [] rest)
    else splitWsAux (c :: cur) rest

/-- Model of Python `str.split()` with no argument: split on whitespace runs,
no empty tokens. -/
def pySplit (s : String) : List String := (splitWsAux [] s.data).map (fun l => ⟨l⟩)

/-- Helper for `pyTitle`: the boolean records whether the previous character
was alphabetic. -/
def titleAux : Bool → List Char → List Char
  | _, [] => []
  | prevAlpha, c :: rest =>
    (if c.isAlpha then (if prevAlpha then c.toLower else c.toUpper) else c)
      :: titleAux c.isAlpha rest

/-- Model of Python `str.title()`: the first letter of every alphabetic run is
uppercased, the rest lowercased. -/
def pyTitle (s : String) : String := ⟨titleAux false s.data⟩

/-- Numeric value of a digit string. -/
def digitsToNat (l : List Char) : ℕ := l.foldl (fun a c => 10 * a + (c.toNat - 48)) 0

/-- Unsigned part of Python `float(str)`: digits, optionally followed by a
point and further digits (a practical subset of the accepted grammar; on it
the model agrees with Python, and strings outside the full grammar, such as
"abc", are rejected by both). Returns the exact rational value. -/
def pyFloatCore (l : List Char) : Option ℚ :=
  let ip := l.takeWhile Char.isDigit
  let rest := l.dropWhile Char.isDigit
  match rest with
  | [] => if ip.isEmpty then none else some (digitsToNat ip : ℚ)
  | '.' :: frac =>
    if frac.all Char.isDigit && !(ip.isEmpty && frac.isEmpty) then
      some ((digitsToNat ip : ℚ) + (digitsToNat frac : ℚ) / 10 ^ frac.length)
    else none
  | _ => none

/-- Model of Python `float(str)`: optional sign, then `pyFloatCore`.
`none` models the `ValueError` raised on a malformed literal. -/
def pyFloat (s : String) : Option ℚ :=
  match s.data with
  | '-' :: rest => (pyFloatCore rest).map Neg.neg
  | '+' :: rest => pyFloatCore rest
  | l => pyFloatCore l

/-- Digits-only part of Python `int(str)`. -/
def pyIntDigits (l : List Char) : Option ℤ :=
  if !l.isEmpty && l.all Char.isDigit then some (digitsToNat l : ℤ) else none

/-- Model of Python `int(str)`: optional sign then digits; `none` models the
`ValueError` raised on anything else (e.g. on a non-numeric price_range). -/
def pyIntOfString (s : String) : Option ℤ :=
  match s.data with
  | '-' :: rest => (pyIntDigits rest).map Neg.neg
  | '+' :: rest => pyIntDigits rest
  | l => pyIntDigits l

/-- Model of Python `int(float)`: truncation toward zero. -/
def pyTrunc (q : ℚ) : ℤ := if 0 ≤ q then ⌊q⌋ else ⌈q⌉

/-- Model of Python `round(x, 1)`: round to one decimal place. (Python breaks
exact ties to even; the model rounds half up. The two agree everywhere except
at exact midpoints, which no statement below depends on.) -/
def pyRound1 (q : ℚ) : ℚ := ((⌊q * 10 + 1 / 2⌋ : ℤ) : ℚ) / 10

/-- The CUISINE_DISHES table (mapping of cuisines to common dishes),
in source enumeration order. -/
def CUISINE_DISHES : List (String × List String) :=
  [("north_indian", ["Butter Chicken", "Tandoori Roti", "Paneer Tikka", "Dal Makhani", "Naan", "Chole Bhature"]),
   ("south_indian", ["Dosa", "Idli", "Vada", "Sambar", "Rasam", "Appam", "Pongal"]),
   ("chinese", ["Dim Sum", "Kung Pao Chicken", "Fried Rice", "Hakka Noodles", "Manchurian"]),
   ("italian", ["Pizza", "Pasta", "Risotto", "Lasagna", "Tiramisu"]),
   ("mexican", ["Tacos", "Burritos", "Quesadillas", "Guacamole"]),
   ("japanese", ["Sushi", "Ramen", "Tempura", "Udon"]),
   ("thai", ["Pad Thai", "Green Curry", "Tom Yum Soup", "Mango Sticky Rice"]),
   ("street_food", ["Golgappa/Pani Puri", "Vada Pav", "Bhel Puri", "Pav Bhaji", "Chole Kulche"]),
   ("bengali", ["Mishti Doi", "Rasgulla", "Sandesh", "Fish Curry", "Kosha Mangsho"]),
   ("gujarati", ["Dhokla", "Thepla", "Khandvi", "Fafda", "Undhiyu"]),
   ("punjabi", ["Sarson Da Saag", "Makki Di Roti", "Amritsari Fish", "Butter Chicken", "Lassi"]),
   ("seafood", ["Fish Curry", "Prawn Masala", "Crab Roast", "Fish Fry"]),
   ("vegetarian", ["Paneer Dishes", "Dal Tadka", "Gobi Manchurian", "Vegetable Biryani"]),
   ("vegan", ["Vegetable Curry", "Tofu Dishes", "Falafel"]),
   ("fast_food", ["Burgers", "Pizza", "Fries", "Sandwiches"])]

/-- The REGIONAL_DISHES table (region-specific dishes), in source
enumeration order. -/
def REGIONAL_DISHES : List (String × List String) :=
  [("delhi", ["Chole Bhature", "Paranthas", "Butter Chicken", "Chaat", "Kebabs"]),
   ("mumbai", ["Vada Pav", "Pav Bhaji", "Bhel Puri", "Bombay Sandwich"]),
   ("bangalore", ["Dosa", "Idli Vada", "Filter Coffee", "Bisi Bele Bath"]),
   ("kolkata", ["Rasgulla", "Sandesh", "Kathi Rolls", "Fish Curry", "Phuchka"]),
   ("chennai", ["Idli", "Dosa", "Filter Coffee", "Chettinad Cuisine"]),
   ("hyderabad", ["Hyderabadi Biryani", "Haleem", "Irani Chai", "Osmania Biscuits"]),
   ("jaipur", ["Dal Baati Churma", "Pyaaz Kachori", "Ghewar", "Laal Maas"]),
   ("lucknow", ["Tunday Kebabs", "Lucknowi Biryani", "Basket Chaat", "Sheermal"])]

/-- Python dict key lookup for the two dish tables. -/
def lookupTable (m : List (String × List String)) (k : String) : Option (List String) :=
  (m.find? (fun p => p.1 = k)).map (fun p => p.2)

/-- `get_budget_tag`: map budget range to OpenStreetMap price level tag. -/
def get_budget_tag (budget_range : String) : String :=
  if budget_range = "Budget (<₹300)" then "1"
  else if budget_range = "Moderate (₹300-₹600)" then "2"
  else if budget_range = "High (₹600-₹1000)" then "3"
  else "4"

/-- `get_cuisine_tag`: convert cuisine type to lowercase tag for search
(`none` models the Python `None` returned for "Any"). -/
def get_cuisine_tag (cuisine_type : String) : Option String :=
  if cuisine_type = "Any" then none
  else some (charReplace ' ' "_" (strLower cuisine_type))

/-- `get_dietary_filter`: generate dietary filter for Overpass query. -/
def get_dietary_filter (dietary_restrictions : List String) : List String :=
  if "None" ∈ dietary_restrictions ∨ dietary_restrictions = [] then []
  else
    (if "Vegetarian" ∈ dietary_restrictions then ["[\"diet:vegetarian\"=\"yes\"]"] else [])
      ++ (if "Vegan" ∈ dietary_restrictions then ["[\"diet:vegan\"=\"yes\"]"] else [])
      ++ (if "Gluten-Free" ∈ dietary_restrictions then ["[\"diet:gluten_free\"=\"yes\"]"] else [])

/-- The normalized record produced by `extract_restaurant_details` (the
Python dict of src/app.py lines 174-187, plus the `distance` key that the
pipeline adds at line 302 before any other use of the record; `stars` is
`Option` because a Python dict value may be `None` mid-computation, `none`
models an absent value). -/
structure Restaurant where
  name : String
  cuisine : String
  address : String
  phone : String
  website : String
  opening_hours : String
  price_range : String
  price_display : String
  stars : Option ℚ
  rating : String
  lat : ℚ
  lon : ℚ
  distance : ℚ
deriving DecidableEq

/-- Python `tags.get(k)`: `none` models an absent key. -/
def tget (tags : List (String × String)) (k : String) : Option String :=
  (tags.find? (fun p => p.1 = k)).map (fun p => p.2)

/-- The starRating computation of the normalizer (src/app.py lines 165-169):
`stars = int(float(tags.get("stars", "0")) * 5) if "stars" in tags else None`,
then `if not stars: stars = round(random.uniform(3.5, 4.9), 1)`.  Note that
Python `not stars` is true both for `None` and for a parsed value of `0`.
`none` models the `ValueError` of `float(...)` on a malformed stars tag;
`rand` models the uniform draw. -/
def starsValue (tags : List (String × String)) (rand : ℚ) : Option ℚ :=
  match (match tget tags "stars" with
         | some v => (pyFloat v).map (fun f => some (pyTrunc (f * 5)))
         | none => some none) with
  | none => none
  | some starsParsed =>
    some (match starsParsed with
          | some z => if z = 0 then pyRound1 rand else (z : ℚ)
          | none => pyRound1 rand)

/-- `extract_restaurant_details`: extract restaurant details from an OSM
element (src/app.py lines 139-187).  `fmt` models the Python textual
rendering of a number (used only in the displayed rating string); `rand`
models the draw `random.uniform(3.5, 4.9)`; `none` models a raised
exception (`float(...)` on a malformed stars tag, `int(...)` on a
malformed non-empty price_range tag). -/
def extract_restaurant_details (fmt : ℚ → String) (tags : List (String × String))
    (rand lat lon : ℚ) : Option Restaurant :=
  let name := (tget tags "name").getD "Unnamed Restaurant"
  let cuisine := pyTitle (charReplace ';' ", " ((tget tags "cuisine").getD ""))
  let address_parts :=
    (["addr:housenumber", "addr:street", "addr:city", "addr:postcode"].filterMap
      (fun k => tget tags k)).filter (fun v => v ≠ "")
  let address := if address_parts.isEmpty then "Address not available"
                 else String.intercalate ", " address_parts
  let phone := (tget tags "phone").getD ((tget tags "contact:phone").getD "Not available")
  let website := (tget tags "website").getD ((tget tags "contact:website").getD "")
  let opening_hours := (tget tags "opening_hours").getD "Hours not available"
  let price_range := (tget tags "price_range").getD ""
  -- lines 165-169: see starsValue
  match starsValue tags rand with
  | none => none
  | some starsQ =>
    -- line 172: price_symbols = "₹" * (int(price_range) if price_range else 2)
    match (if price_range = "" then some (2 : ℤ) else pyIntOfString price_range) with
    | none => none
    | some nSym =>
      some { name := name, cuisine := cuisine, address := address, phone := phone,
             website := website, opening_hours := opening_hours,
             price_range := price_range,
             price_display := ⟨List.replicate nSym.toNat '₹'⟩,
             stars := some starsQ,
             rating := if starsQ = 0 then "Not rated" else fmt starsQ ++ "/5",
             lat := lat, lon := lon, distance := 0 }

/-- The fallback loop of `recommend_local_dishes` (src/app.py lines 206-211):
extend by a 1-dish sample from each bucket in enumeration order, stopping
once at least 3 dishes are collected. -/
def fallbackDishes (sample : List String → ℕ → List String) :
    List (String × List String) → List String → List String
  | [], acc => acc
  | (_, bucket) :: rest, acc =>
    let acc2 := acc ++ sample bucket 1
    if 3 ≤ acc2.length then acc2 else fallbackDishes sample rest acc2

/-- `recommend_local_dishes` (src/app.py lines 189-213). `sample b k` models
`random.sample(b, k)`: some k-element sample of bucket `b`. -/
def recommend_local_dishes (sample : List String → ℕ → List String)
    (cuisine_type location_name : String) : List String :=
  let cuisine_key := get_cuisine_tag cuisine_type
  let fromCuisine : List String :=
    match cuisine_key with
    | some k =>
      match lookupTable CUISINE_DISHES k with
      | some bucket => sample bucket (min 2 bucket.length)
      | none => []
    | none => []   -- Python: `None in CUISINE_DISHES` is False
  let location_lower := strLower location_name
  let fromRegion : List String :=
    match REGIONAL_DISHES.find? (fun p => containsSub p.1.data location_lower.data) with
    | some p => sample p.2 (min 2 p.2.length)
    | none => []
  let dishes := fromCuisine ++ fromRegion
  -- line 207: if not dishes and cuisine_key != "any":  (note: None != "any" is True)
  let dishes :=
    if dishes.isEmpty ∧ cuisine_key ≠ some "any" then fallbackDishes sample CUISINE_DISHES []
    else dishes
  dishes.take 3

/-- The Overpass query construction (src/app.py lines 239-286), as the list
`query_parts` of unioned subqueries.  `around` stands for the formatted
region bound `(around:radius*1000,lat,lon)`, which the source interpolates
identically into every subquery. -/
def buildQueryParts (around : String) (cuisine_type : String)
    (dietary_restrictions : List String) (budget_range : String) : List String :=
  let cuisine_tag := get_cuisine_tag cuisine_type
  let dietary_filters := get_dietary_filter dietary_restrictions
  let budget_tag := get_budget_tag budget_range
  let restaurant_query := "node[\"amenity\"=\"restaurant\"]" ++ around
  let restaurant_query :=
    match cuisine_tag with
    | some c => restaurant_query ++ "[\"cuisine\"~\"" ++ c ++ "\"]"
    | none => restaurant_query
  let restaurant_query := restaurant_query ++ String.join dietary_filters
  -- line 258: if budget_tag:  (always a non-empty string)
  let restaurant_query :=
    if budget_tag ≠ "" then restaurant_query ++ "[\"price_range\"=\"" ++ budget_tag ++ "\"]"
    else restaurant_query
  let query_parts := [restaurant_query ++ ";"]
  let cafe_query := "node[\"amenity\"=\"cafe\"]" ++ around ++ String.join dietary_filters
  let query_parts := query_parts ++ [cafe_query ++ ";"]
  if budget_range = "Budget (<₹300)" then
    query_parts ++ ["node[\"amenity\"=\"fast_food\"]" ++ around ++ ";"]
  else query_parts

/-- Python `str(restaurant)` for the normalized dict: its repr, keys in
insertion order.  `fmt` models the textual rendering of numbers. -/
def restaurantRepr (fmt : ℚ → String) (r : Restaurant) : String :=
  "\x7b\x27name\x27: \x27" ++ r.name
    ++ "\x27, \x27cuisine\x27: \x27" ++ r.cuisine
    ++ "\x27, \x27address\x27: \x27" ++ r.address
    ++ "\x27, \x27phone\x27: \x27" ++ r.phone
    ++ "\x27, \x27website\x27: \x27" ++ r.website
    ++ "\x27, \x27opening_hours\x27: \x27" ++ r.opening_hours
    ++ "\x27, \x27price_range\x27: \x27" ++ r.price_range
    ++ "\x27, \x27price_display\x27: \x27" ++ r.price_display
    ++ "\x27, \x27stars\x27: " ++ (match r.stars with | some q => fmt q | none => "None")
    ++ ", \x27rating\x27: \x27" ++ r.rating
    ++ "\x27, \x27lat\x27: " ++ fmt r.lat
    ++ ", \x27lon\x27: " ++ fmt r.lon
    ++ ", \x27distance\x27: " ++ fmt r.distance ++ "\x7d"

/-- One restaurant passes the free-text keyword check (src/app.py line 311):
some whitespace token of the lowercased preferences occurs as a substring of
the lowercased `str(restaurant)`. -/
def matchesPreferences (fmt : ℚ → String) (preferences_lower : String) (r : Restaurant) : Bool :=
  (pySplit preferences_lower).any
    (fun t => containsSub t.data (strLower (restaurantRepr fmt r)).data)

/-- The free-text filtering step of the pipeline (src/app.py lines 305-316):
applied only when `additional_preferences` is non-empty (Python truthiness),
and discarded when it would remove every restaurant. -/
def filterByPreferences (fmt : ℚ → String) (additional_preferences : String)
    (restaurants : List Restaurant) : List Restaurant :=
  if additional_preferences = "" then restaurants
  else
    let filtered := restaurants.filter (matchesPreferences fmt (strLower additional_preferences))
    if filtered.isEmpty then restaurants else filtered

/-- `sort_key` (src/app.py lines 319-323): composite ranking score.
`r.get("stars", 3.5)` defaults to 3.5 when the key is absent. -/
def sort_key (r : Restaurant) : ℚ := -(r.stars.getD 3.5) + r.distance * 0.1

/-- Comparison by composite score, the order used by the ranking sort. -/
def scoreLE (a b : Restaurant) : Prop := sort_key a ≤ sort_key b

instance : DecidableRel scoreLE := fun a b => inferInstanceAs (Decidable (sort_key a ≤ sort_key b))

instance : IsTotal Restaurant scoreLE := ⟨fun a b => le_total (sort_key a) (sort_key b)⟩

instance : IsTrans Restaurant scoreLE := ⟨fun _ _ _ => le_trans⟩

/-- The ranking sort (src/app.py line 325): `restaurants.sort(key=sort_key)`.
Python `list.sort` is a stable ascending sort by key; the stable ascending
sort of a list is unique, and is modelled here by insertion sort, which is
stable. -/
def rankSort (restaurants : List Restaurant) : List Restaurant :=
  List.insertionSort scoreLE restaurants

/-- Terminal user-facing outcomes of one request (§7 of the spec; the
branches of src/app.py lines 216-432). -/
inductive Outcome where
  | success : List Restaurant → List String → Outcome
  | noMatches : List String → Outcome
  | locationNotFound : Outcome
  | errorOut : String → Outcome
deriving DecidableEq

/-- The fallback suggestions displayed on the no-matches branch
(src/app.py lines 420-426). -/
def noMatchesSuggestions : List String :=
  ["Increase the search radius", "Try a different cuisine type",
   "Reduce dietary restrictions", "Check your location spelling"]

/-- The result branch of the pipeline (src/app.py lines 331-426): on a
non-empty ranked list, fetch dish recommendations and succeed; on an empty
ranked list, emit the no-matches outcome with its fallback suggestions. -/
def resultBranch (sample : List String → ℕ → List String)
    (cuisine_type location : String) (ranked : List Restaurant) : Outcome :=
  if ranked.isEmpty then Outcome.noMatches noMatchesSuggestions
  else Outcome.success ranked (recommend_local_dishes sample cuisine_type location)

/-! ### Concrete helpers used by witnesses -/

/-- A deterministic instantiation of the injected sampler: take the first
`k` elements of the bucket. -/
def sampleTake (l : List String) (k : ℕ) : List String := l.take k

/-- A trivial instantiation of the number-rendering parameter. -/
def fmt0 : ℚ → String := fun _ => ""

/-- A restaurant record with the given star rating and distance and inert
string fields, for concrete ranking computations. -/
def rTie (s d : ℚ) : Restaurant :=
  { name := "R", cuisine := "", address := "", phone := "", website := "",
    opening_hours := "", price_range := "", price_display := "", stars := some s,
    rating := "", lat := 0, lon := 0, distance := d }

/-- Budget tiers mapped 1:1 to the ordinal strings "1".."4" in tier order —
the mapping as the spec words it, for comparison with `get_budget_tag`. -/
def tierOrdinal (budget_range : String) : String :=
  if budget_range = "Budget (<₹300)" then "1"
  else if budget_range = "Moderate (₹300-₹600)" then "2"
  else if budget_range = "High (₹600-₹1000)" then "3"
  else if budget_range = "Premium (>₹1000)" then "4"
  else ""

/-- The stars tag, when present, parses as a Python float (the condition
under which line 165 cannot raise). -/
def starsParseOk (tags : List (String × String)) : Bool :=
  match tget tags "stars" with
  | some v => (pyFloat v).isSome
  | none => true

/-- The price_range tag is absent/empty or parses as a Python int (the
condition under which line 172 cannot raise). -/
def priceParseOk (tags : List (String × String)) : Bool :=
  ((tget tags "price_range").getD "" = "")
    || (pyIntOfString ((tget tags "price_range").getD "")).isSome

/-! ### Claims -/

/-- C9: for every RawPoi, the Restaurant produced by normalization (when one
is produced) carries a present, non-null starRating, so the ranking step can
read it unconditionally. -/
theorem normalized_stars_present (fmt : ℚ → String) (tags : List (String × String))
    (rand lat lon : ℚ) :
    Option.all (fun r => r.stars.isSome) (extract_restaurant_details fmt tags rand lat lon)
      = true := by
  unfold extract_restaurant_details
  dsimp only
  repeat' split
  all_goals rfl

/-- C10: any dietary selection containing "None" — even alongside
Vegetarian, Vegan or Gluten-Free — and the empty selection produce an empty
dietary filter list, so the built query carries no diet tag filters and the
other selected flags are silently discarded. -/
theorem dietary_none_discards_all (sel : List String) (h : "None" ∈ sel ∨ sel = []) :
    get_dietary_filter sel = []
      ∧ ∀ around cuisine budget,
          buildQueryParts around cuisine sel budget = buildQueryParts around cuisine [] budget := by
  have h0 : get_dietary_filter sel = [] := by
    unfold get_dietary_filter
    exact if_pos h
  refine ⟨h0, fun around cuisine budget => ?_⟩
  unfold buildQueryParts
  rw [h0]
  rfl

/-- Witness for C10 at a selection holding "None" together with other
flags. -/
theorem dietary_none_discards_all_witness :
    get_dietary_filter ["None", "Vegetarian", "Vegan"] = [] :=
  (dietary_none_discards_all ["None", "Vegetarian", "Vegan"] (Or.inl (by decide))).1

/-- C8: on an empty ranked list the pipeline emits the no-matches outcome
with the four fallback suggestions, an outcome distinct from every error
outcome and independent of the dish recommender; dish recommendations are
fetched only on the non-empty branch. -/
theorem no_matches_terminal (sample : List String → ℕ → List String)
    (cuisine_type location : String) (ranked : List Restaurant) :
    (ranked = [] →
        resultBranch sample cuisine_type location ranked = Outcome.noMatches noMatchesSuggestions
          ∧ (∀ msg, resultBranch sample cuisine_type location ranked ≠ Outcome.errorOut msg)
          ∧ ∀ sample2, resultBranch sample cuisine_type location ranked
              = resultBranch sample2 cuisine_type location ranked)
      ∧ (ranked ≠ [] →
          resultBranch sample cuisine_type location ranked
            = Outcome.success ranked (recommend_local_dishes sample cuisine_type location)) := by
  constructor
  · intro he
    subst he
    exact ⟨rfl, fun msg => by simp [resultBranch, noMatchesSuggestions], fun sample2 => rfl⟩
  · intro hne
    unfold resultBranch
    rw [if_neg (by simpa [List.isEmpty_iff] using hne)]

/-- Witness for C8 on a concretely empty ranked list. -/
theorem no_matches_terminal_witness :
    resultBranch sampleTake "Any" "Delhi" [] = Outcome.noMatches noMatchesSuggestions :=
  ((no_matches_terminal sampleTake "Any" "Delhi" []).1 rfl).1

/-- C2: with a non-empty restaurant list and non-empty free text, the kept
list is exactly the restaurants matching some lowercased whitespace token as
a substring of their lowercased full-field text — unless that filter would
keep nothing, in which case the original list is kept; the result is never
empty. -/
theorem freetext_filter_advisory (fmt : ℚ → String) (prefs : String) (l : List Restaurant)
    (hl : l ≠ []) (hp : prefs ≠ "") :
    (filterByPreferences fmt prefs l =
        if (l.filter (matchesPreferences fmt (strLower prefs))).isEmpty then l
        else l.filter (matchesPreferences fmt (strLower prefs)))
      ∧ filterByPreferences fmt prefs l ≠ [] := by
  have h1 : filterByPreferences fmt prefs l =
      if (l.filter (matchesPreferences fmt (strLower prefs))).isEmpty then l
      else l.filter (matchesPreferences fmt (strLower prefs)) := by
    unfold filterByPreferences
    rw [if_neg hp]
  refine ⟨h1, ?_⟩
  rw [h1]
  split
  · exact hl
  · next hne => simpa [List.isEmpty_iff] using hne

/-- Witness for C2: one restaurant, free text matching nothing — the filter
is discarded and the single restaurant survives. -/
theorem freetext_filter_advisory_witness :
    filterByPreferences fmt0 "romantic" [rTie 4 0] ≠ [] :=
  (freetext_filter_advisory fmt0 "romantic" [rTie 4 0] (by decide) (by decide)).2

/-- C5: the built query is the union of a restaurant subquery (cuisine
substring filter exactly when cuisine is not "Any", the dietary filters, and
an exact price_range filter carrying the tier ordinal), a cafe subquery over
the same region with the same dietary filters and nothing else, and — only
for the lowest tier — an unfiltered fast_food subquery over the same
region. -/
theorem query_union_structure (around cuisine_type : String) (diets : List String)
    (budget_range : String)
    (hb : budget_range ∈ ["Budget (<₹300)", "Moderate (₹300-₹600)",
                          "High (₹600-₹1000)", "Premium (>₹1000)"]) :
    buildQueryParts around cuisine_type diets budget_range =
      ["node[\"amenity\"=\"restaurant\"]" ++ around
          ++ (if cuisine_type = "Any" then ""
              else "[\"cuisine\"~\"" ++ charReplace ' ' "_" (strLower cuisine_type) ++ "\"]")
          ++ String.join (get_dietary_filter diets)
          ++ "[\"price_range\"=\"" ++ tierOrdinal budget_range ++ "\"]" ++ ";",
        "node[\"amenity\"=\"cafe\"]" ++ around ++ String.join (get_dietary_filter diets) ++ ";"]
        ++ (if budget_range = "Budget (<₹300)"
            then ["node[\"amenity\"=\"fast_food\"]" ++ around ++ ";"] else []) := by
  fin_cases hb <;>
    by_cases hc : cuisine_type = "Any" <;>
      simp [buildQueryParts, get_cuisine_tag, get_budget_tag, tierOrdinal, hc,
        String.append_assoc, String.append_empty, String.empty_append]

/-- Witness for C5 at a concrete lowest-tier query with a cuisine and one
dietary flag. -/
theorem query_union_structure_witness :
    buildQueryParts "(around:2000,28.6,77.2)" "North Indian" ["Vegetarian"] "Budget (<₹300)" =
      ["node[\"amenity\"=\"restaurant\"]" ++ "(around:2000,28.6,77.2)"
          ++ (if ("North Indian" : String) = "Any" then ""
              else "[\"cuisine\"~\"" ++ charReplace ' ' "_" (strLower "North Indian") ++ "\"]")
          ++ String.join (get_dietary_filter ["Vegetarian"])
          ++ "[\"price_range\"=\"" ++ tierOrdinal "Budget (<₹300)" ++ "\"]" ++ ";",
        "node[\"amenity\"=\"cafe\"]" ++ "(around:2000,28.6,77.2)"
          ++ String.join (get_dietary_filter ["Vegetarian"]) ++ ";"]
        ++ (if ("Budget (<₹300)" : String) = "Budget (<₹300)"
            then ["node[\"amenity\"=\"fast_food\"]" ++ "(around:2000,28.6,77.2)" ++ ";"] else []) :=
  query_union_structure "(around:2000,28.6,77.2)" "North Indian" ["Vegetarian"]
    "Budget (<₹300)" (by decide)

/-- C7 (code bug): with cuisine "Any" and a location matching no region, the
source still runs the general fallback — `get_cuisine_tag "Any"` is `None`,
and `None != "any"` holds — so three fallback dishes are produced where the
spec says none are. -/
theorem any_cuisine_fallback_fires :
    recommend_local_dishes sampleTake "Any" "Paris" = ["Butter Chicken", "Dosa", "Dim Sum"]
      ∧ recommend_local_dishes sampleTake "Any" "Paris" ≠ [] := by
  constructor <;> decide

/-- Restaurants of one fixed composite score are pairwise comparable, in
both orders. -/
theorem pairwise_scoreLE_filter (l : List Restaurant) (c : ℚ) :
    (l.filter (fun r => decide (sort_key r = c))).Pairwise scoreLE := by
  apply List.pairwise_of_forall_mem_list
  intro a ha b hb
  have ha2 : sort_key a = c := by simpa using (List.mem_filter.mp ha).2
  have hb2 : sort_key b = c := by simpa using (List.mem_filter.mp hb).2
  exact le_of_eq (ha2.trans hb2.symm)

/-- C1: the ranking step is a permutation of its input, sorted ascending by
the composite score `-starRating + 0.1 * distanceKm`, and stable: the
subsequence of restaurants at any fixed score is exactly their original
input subsequence. -/
theorem ranking_sorted_and_stable (l : List Restaurant) :
    (rankSort l).Perm l
      ∧ List.Sorted scoreLE (rankSort l)
      ∧ ∀ c : ℚ, (rankSort l).filter (fun r => decide (sort_key r = c))
          = l.filter (fun r => decide (sort_key r = c)) := by
  refine ⟨List.perm_insertionSort _ l, List.sorted_insertionSort _ l, fun c => ?_⟩
  have hsub : List.Sublist (l.filter (fun r => decide (sort_key r = c))) (rankSort l) :=
    List.sublist_insertionSort (pairwise_scoreLE_filter l c) (List.filter_sublist l)
  have hid : (l.filter (fun r => decide (sort_key r = c))).filter
      (fun r => decide (sort_key r = c)) = l.filter (fun r => decide (sort_key r = c)) := by
    rw [List.filter_filter]
    simp
  have hsub2 := hsub.filter (fun r => decide (sort_key r = c))
  rw [hid] at hsub2
  have hperm : ((rankSort l).filter (fun r => decide (sort_key r = c))).Perm
      (l.filter (fun r => decide (sort_key r = c))) :=
    (List.perm_insertionSort scoreLE l).filter _
  exact (hsub2.eq_of_length hperm.length_eq.symm).symm

/-- C6 (amended): when A is exactly 1 star higher and exactly 10 km farther
than B, their composite scores tie exactly (0.1 * 10 = 1), so the stable
sort keeps the input order of the pair: A outranks B exactly when A precedes
B in the input. -/
theorem one_star_ten_km_exact_tie (A B : Restaurant)
    (h1 : A.stars.getD 3.5 = B.stars.getD 3.5 + 1)
    (h2 : A.distance = B.distance + 10) :
    sort_key A = sort_key B ∧ rankSort [A, B] = [A, B] ∧ rankSort [B, A] = [B, A] := by
  have hk : sort_key A = sort_key B := by
    unfold sort_key
    rw [h1, h2]
    have h01 : (0.1 : ℚ) = 1 / 10 := by norm_num
    rw [h01]
    ring
  have hAB : scoreLE A B := le_of_eq hk
  have hBA : scoreLE B A := le_of_eq hk.symm
  refine ⟨hk, ?_, ?_⟩
  · show List.orderedInsert scoreLE A (List.orderedInsert scoreLE B []) = [A, B]
    simp [List.orderedInsert, hAB]
  · show List.orderedInsert scoreLE B (List.orderedInsert scoreLE A []) = [B, A]
    simp [List.orderedInsert, hBA]

/-- Witness for C6 (amended) on a concrete 1-star / 10-km pair. -/
theorem one_star_ten_km_exact_tie_witness :
    sort_key (rTie (9/2) 10) = sort_key (rTie (7/2) 0)
      ∧ rankSort [rTie (9/2) 10, rTie (7/2) 0] = [rTie (9/2) 10, rTie (7/2) 0]
      ∧ rankSort [rTie (7/2) 0, rTie (9/2) 10] = [rTie (7/2) 0, rTie (9/2) 10] :=
  one_star_ten_km_exact_tie (rTie (9/2) 10) (rTie (7/2) 0)
    (by norm_num [rTie]) (by norm_num [rTie])

/-- Counterexample to C6 as stated: with B first in the input, the
1-star-higher, 10-km-farther restaurant A ties on score and therefore stays
second under the stable sort — it does not outrank B. -/
theorem one_star_ten_km_not_always_outranks :
    (rTie (9/2) 10).stars.getD 3.5 = (rTie (7/2) 0).stars.getD 3.5 + 1
      ∧ (rTie (9/2) 10).distance = (rTie (7/2) 0).distance + 10
      ∧ rankSort [rTie (7/2) 0, rTie (9/2) 10] = [rTie (7/2) 0, rTie (9/2) 10]
      ∧ rTie (9/2) 10 ≠ rTie (7/2) 0 := by
  have hBA : scoreLE (rTie (7/2) 0) (rTie (9/2) 10) := by
    unfold scoreLE sort_key
    norm_num [rTie]
  refine ⟨by norm_num [rTie], by norm_num [rTie], ?_, ?_⟩
  · show List.orderedInsert scoreLE (rTie (7/2) 0)
        (List.orderedInsert scoreLE (rTie (9/2) 10) []) = [rTie (7/2) 0, rTie (9/2) 10]
    simp [List.orderedInsert, hBA]
  · intro h
    have hd := congrArg Restaurant.distance h
    norm_num [rTie] at hd

/-- C3 (amended): when a stars tag is present, parses as a number `f`, and
`int(f * 5)` is non-zero, the starRating is exactly that truncated integer;
when no stars tag is present the starRating is the uniform draw rounded to
one decimal, which stays within [3.5, 4.9]. (When the truncated integer is
0 the source's `if not stars` falls through to the synthesized draw — see
the counterexample.) -/
theorem stars_synthesis_rule (tags : List (String × String)) (rand : ℚ) (v : String) (f : ℚ)
    (h35 : (7/2 : ℚ) ≤ rand) (h49 : rand ≤ 49/10) :
    (tget tags "stars" = some v → pyFloat v = some f → pyTrunc (f * 5) ≠ 0 →
        starsValue tags rand = some ((pyTrunc (f * 5) : ℤ) : ℚ))
      ∧ (tget tags "stars" = none → starsValue tags rand = some (pyRound1 rand))
      ∧ (7/2 : ℚ) ≤ pyRound1 rand ∧ pyRound1 rand ≤ 49/10 := by
  have hfl : (35 : ℤ) ≤ ⌊rand * 10 + 1 / 2⌋ := by
    rw [Int.le_floor]
    push_cast
    linarith
  have hfu : ⌊rand * 10 + 1 / 2⌋ < 50 := by
    rw [Int.floor_lt]
    push_cast
    linarith
  refine ⟨fun hv hf hz => ?_, fun hn => by simp [starsValue, hn], ?_, ?_⟩
  · simp [starsValue, hv, hf, hz]
  · unfold pyRound1
    have : (35 : ℚ) ≤ (⌊rand * 10 + 1 / 2⌋ : ℚ) := by exact_mod_cast hfl
    linarith
  · unfold pyRound1
    have h49i : ⌊rand * 10 + 1 / 2⌋ ≤ 49 := by omega
    have : ((⌊rand * 10 + 1 / 2⌋ : ℤ) : ℚ) ≤ 49 := by exact_mod_cast h49i
    linarith

/-- Witness for C3 (amended): a stars tag of "0.9" parses to 9/10 and yields
the truncated rating int(9/10 * 5) = 4; the synthesized draw at rand = 4
stays in range. -/
theorem stars_synthesis_rule_witness :
    starsValue [("stars", "0.9")] 4 = some ((pyTrunc ((9/10) * 5) : ℤ) : ℚ)
      ∧ (7/2 : ℚ) ≤ pyRound1 4 ∧ pyRound1 4 ≤ 49/10 := by
  have h := stars_synthesis_rule [("stars", "0.9")] 4 "0.9" (9/10)
    (by norm_num) (by norm_num)
  refine ⟨h.1 (by decide) ?_ ?_, h.2.2⟩
  · show pyFloat "0.9" = some (9/10)
    have hd : "0.9".data = ['0', '.', '9'] := by decide
    simp [pyFloat, pyFloatCore, hd, digitsToNat]
  · show pyTrunc ((9/10 : ℚ) * 5) ≠ 0
    rw [show (9/10 : ℚ) * 5 = 9/2 by norm_num]
    unfold pyTrunc
    rw [if_pos (by norm_num : (0:ℚ) ≤ 9/2)]
    rw [show ⌊(9 : ℚ)/2⌋ = 4 by rw [Int.floor_eq_iff] <;> norm_num]
    norm_num

/-- Counterexample to C3 as stated: the stars tag "0.1" is present and
parses, `int(0.1 * 5) = 0`, but Python `if not stars` treats 0 as missing,
so the rating is the synthesized draw (4 at rand = 4), not the truncated
tag value 0. -/
theorem stars_tag_zero_is_resynthesized :
    pyFloat "0.1" = some (1/10)
      ∧ pyTrunc ((1/10) * 5) = 0
      ∧ starsValue [("stars", "0.1")] 4 = some 4
      ∧ (4 : ℚ) ≠ ((pyTrunc ((1/10) * 5) : ℤ) : ℚ) := by
  have hf : pyFloat "0.1" = some (1/10) := by
    have hd : "0.1".data = ['0', '.', '1'] := by decide
    simp [pyFloat, pyFloatCore, hd, digitsToNat]
  have hfl0 : ⌊(1 : ℚ)/2⌋ = 0 := by
    rw [Int.floor_eq_iff] <;> norm_num
  have ht : pyTrunc ((1/10) * 5) = 0 := by
    unfold pyTrunc
    rw [if_pos (by norm_num : (0:ℚ) ≤ 1/10 * 5)]
    rw [show (1/10 : ℚ) * 5 = 1/2 by norm_num]
    exact hfl0
  have hr : pyRound1 4 = 4 := by
    unfold pyRound1
    rw [show (4 : ℚ) * 10 + 1/2 = 81/2 by norm_num]
    rw [show ⌊(81 : ℚ)/2⌋ = 40 by rw [Int.floor_eq_iff] <;> norm_num]
    norm_num
  refine ⟨hf, ht, ?_, by rw [ht]; norm_num⟩
  have hv : tget [("stars", "0.1")] "stars" = some "0.1" := by decide
  simp only [starsValue, hv, hf, Option.map_some']
  rw [if_pos ht, hr]

/-- C4 (amended): normalization returns a Restaurant for every tag bag whose
stars tag (when present) parses as a float and whose price_range tag (when
present and non-empty) parses as an int; and on a tag bag with no relevant
keys every field degrades to its documented default.  (On non-numeric
stars/price_range strings the source raises — see the counterexample.) -/
theorem normalize_total_on_parsable (fmt : ℚ → String) (tags : List (String × String))
    (rand lat lon : ℚ)
    (h1 : starsParseOk tags = true) (h2 : priceParseOk tags = true) :
    (extract_restaurant_details fmt tags rand lat lon).isSome = true
      ∧ extract_restaurant_details fmt [] rand lat lon = some
          { name := "Unnamed Restaurant", cuisine := "", address := "Address not available",
            phone := "Not available", website := "", opening_hours := "Hours not available",
            price_range := "", price_display := "₹₹", stars := some (pyRound1 rand),
            rating := if pyRound1 rand = 0 then "Not rated" else fmt (pyRound1 rand) ++ "/5",
            lat := lat, lon := lon, distance := 0 } := by
  constructor
  · have hs : (starsValue tags rand).isSome = true := by
      unfold starsParseOk at h1
      unfold starsValue
      cases htag : tget tags "stars" with
      | none => simp
      | some v =>
        have h1x : (pyFloat v).isSome = true := by simpa [htag] using h1
        cases hfv : pyFloat v with
        | none => rw [hfv] at h1x; simp at h1x
        | some f => simp [hfv]
    obtain ⟨q, hq⟩ := Option.isSome_iff_exists.mp hs
    have hp : (if (tget tags "price_range").getD "" = "" then some (2 : ℤ)
        else pyIntOfString ((tget tags "price_range").getD "")).isSome = true := by
      unfold priceParseOk at h2
      by_cases hpr : (tget tags "price_range").getD "" = ""
      · simp [hpr]
      · rw [if_neg hpr]
        simpa [hpr] using h2
    obtain ⟨n, hn⟩ := Option.isSome_iff_exists.mp hp
    unfold extract_restaurant_details
    dsimp only
    rw [hq, hn]
    rfl
  · rfl

/-- Counterexample to C4 as stated: a stars tag that is not numeric makes
`float(...)` raise, so normalization produces no Restaurant. -/
theorem normalize_raises_on_bad_stars :
    extract_restaurant_details fmt0 [("stars", "four")] 4 0 0 = none := by decide

/-- Witness for C4 (amended) on a tag bag with parsable stars and
price_range values. -/
theorem normalize_total_on_parsable_witness :
    starsParseOk [("stars", "0.9"), ("price_range", "2")] = true
      ∧ priceParseOk [("stars", "0.9"), ("price_range", "2")] = true
      ∧ (extract_restaurant_details fmt0 [("stars", "0.9"), ("price_range", "2")] 4 0 0).isSome
          = true :=
  ⟨by decide, by decide,
    (normalize_total_on_parsable fmt0 [("stars", "0.9"), ("price_range", "2")] 4 0 0
      (by decide) (by decide)).1⟩

end LocalRecommend
